import Mathlib

/-!
Verification development for the C-Q-T steel heat-treatment simulator frontend.

The definitions below are a shallow embedding of the TypeScript sources under
`web_application/frontend/src` (types from `types/simulation.ts`, the request
validation helpers from `services/api.ts`, the submit handler from `App.tsx`,
the quench-medium handler from `components/InputForm.tsx`, the comparison
handler from `components/MaterialComparison.tsx`, and the quality scoring from
`components/QualityReport.tsx`).  JavaScript numbers are modelled as `ℚ`
(the validation thresholds compare exactly-representable decimal literals, so
ordering of rationals matches ordering of the corresponding doubles), runtime
`undefined` as `Option`, and `Record<string, _>` objects as association lists.
The CompositionModel of the numerical core is not part of these sources; it is
modelled from the specification in the `CoreModel` namespace.
-/

namespace CQT

/-- Association-list model of a loosely typed JavaScript value
(`Record<string, any>` fields of the result structure). -/
inductive JsValue where
  | str (s : String)
  | num (q : ℚ)
  | boolean (b : Bool)
  | null
  | arr (xs : List JsValue)
  | obj (fields : List (String × JsValue))

/-- `SteelCompositionInput` from `types/simulation.ts`.  `C` is an `Option`
because `validateSimulationRequest` guards it with a JavaScript falsiness
check (`!request.steel_composition.C`), so an absent value is observable. -/
structure SteelCompositionInput where
  grade : Option String
  C : Option ℚ
  Si : ℚ
  Mn : ℚ
  Ni : ℚ
  Cr : ℚ
  Mo : ℚ
  V : ℚ
  W : ℚ
  Cu : ℚ
  P : ℚ
  Al : ℚ
  As : ℚ
  Ti : ℚ
deriving DecidableEq

/-- `CarburizingConditions` from `types/simulation.ts`. -/
structure CarburizingConditions where
  temperature : ℚ
  time_hours : ℚ
  carbon_potential : ℚ
  heating_rate : ℚ
  atmosphere_type : String
  gas_flow_rate : ℚ
  mass_transfer_coefficient : ℚ
  diffusion_temperature : Option ℚ
  diffusion_time : Option ℚ
deriving DecidableEq

/-- `QuenchingConditions` from `types/simulation.ts`. -/
structure QuenchingConditions where
  quench_medium : String
  quench_temperature : ℚ
  heat_transfer_coefficient : Option ℚ
  agitation_rate : ℚ
  quench_time : ℚ
  delay_time : ℚ
deriving DecidableEq

/-- `TemperingConditions` from `types/simulation.ts`. -/
structure TemperingConditions where
  temperature : ℚ
  time_hours : ℚ
  heating_rate : ℚ
  cooling_method : String
  multiple_tempers : Bool
  temper_cycles : ℚ
deriving DecidableEq

/-- `PartGeometry` from `types/simulation.ts`.  `characteristic_dimension` is
an `Option` because `validateSimulationRequest` guards it with a falsiness
check. -/
structure PartGeometry where
  geometry_type : String
  diameter : Option ℚ
  length : Option ℚ
  thickness : Option ℚ
  characteristic_dimension : Option ℚ
  surface_area : Option ℚ
  volume : Option ℚ
deriving DecidableEq

/-- `InitialConditions` from `types/simulation.ts`. -/
structure InitialConditions where
  initial_grain_size : ℚ
  initial_hardness : Option ℚ
  surface_condition : String
  prior_heat_treatment : String
deriving DecidableEq

/-- `SimulationParameters` from `types/simulation.ts`. -/
structure SimulationParameters where
  spatial_points : ℚ
  time_step_carburizing : ℚ
  time_step_quenching : ℚ
  max_analysis_depth : ℚ
  convergence_tolerance : ℚ
  output_resolution : String
deriving DecidableEq

/-- `SimulationRequest` from `types/simulation.ts`. -/
structure SimulationRequest where
  steel_composition : SteelCompositionInput
  carburizing : CarburizingConditions
  quenching : QuenchingConditions
  tempering : TemperingConditions
  geometry : PartGeometry
  initial_conditions : InitialConditions
  simulation_params : SimulationParameters
  calculation_id : Option String
deriving DecidableEq

/-- `PropertyProfile` from `types/simulation.ts`. -/
structure PropertyProfile where
  distance_mm : List ℚ
  carbon_profile : List ℚ
  hardness_hv : List ℚ
  hardness_hrc : List ℚ
  grain_size : List ℚ
  phase_fractions : List (String × List ℚ)

/-- `ThermalProfile` from `types/simulation.ts`. -/
structure ThermalProfile where
  time_carburizing : List ℚ
  temperature_carburizing : List ℚ
  time_quenching : List ℚ
  temperature_quenching : List ℚ
  cooling_rate : ℚ
  surface_heat_flux : List ℚ

/-- `CaseDepthResults` from `types/simulation.ts`. -/
structure CaseDepthResults where
  case_depth_04_carbon : ℚ
  case_depth_03_carbon : ℚ
  case_depth_50_hrc : ℚ
  case_depth_55_hrc : ℚ
  effective_case_depth : ℚ
  total_case_depth : ℚ

/-- `ProcessMetrics` from `types/simulation.ts`. -/
structure ProcessMetrics where
  surface_carbon : ℚ
  surface_hardness_hv : ℚ
  surface_hardness_hrc : ℚ
  core_hardness_hv : ℚ
  core_hardness_hrc : ℚ
  hardness_gradient : ℚ
  carbon_gradient : ℚ
  distortion_risk : String
  grain_size_surface : ℚ
  grain_size_core : ℚ

/-- `CriticalTemperatures` from `types/simulation.ts`. -/
structure CriticalTemperatures where
  ae3_temperature : ℚ
  ae1_temperature : ℚ
  ms_temperature_core : ℚ
  ms_temperature_surface : ℚ
  bs_temperature : ℚ

/-- `QualityAssessment` from `types/simulation.ts`. -/
structure QualityAssessment where
  gear_requirements_met : Bool
  surface_hardness_ok : Bool
  case_depth_ok : Bool
  core_hardness_ok : Bool
  grain_size_ok : Bool
  overall_grade : String
  recommendations : List String

/-- `SimulationResults` from `types/simulation.ts`: the result structure
delivered to the UI layer. -/
structure SimulationResults where
  calculation_id : String
  timestamp : String
  computation_time : ℚ
  property_profiles : PropertyProfile
  thermal_profiles : ThermalProfile
  case_depth_results : CaseDepthResults
  process_metrics : ProcessMetrics
  critical_temperatures : CriticalTemperatures
  quality_assessment : QualityAssessment
  input_summary : List (String × JsValue)
  warnings : List String
  errors : List String
  validation_status : String

/-- `ValidationResponse` from `types/simulation.ts`. -/
structure ValidationResponse where
  valid : Bool
  error : Option String
  warnings : List String

/-- `QuenchMedium` from `types/simulation.ts`.  The
`heat_transfer_coefficient_range` is an `Option` because
`handleQuenchMediumChange` guards it with a runtime truthiness check. -/
structure QuenchMediumInfo where
  name : String
  typical_temperature : ℚ
  heat_transfer_coefficient_range : Option (ℚ × ℚ)
  description : String
  applications : List String
deriving DecidableEq

/-- `QuenchMediaResponse` from `types/simulation.ts`
(`media : Record<string, QuenchMedium>` as an association list). -/
structure QuenchMediaResponse where
  media : List (String × QuenchMediumInfo)
deriving DecidableEq

/-- `MaterialComparisonResult` from `types/simulation.ts`. -/
structure MaterialComparisonResult where
  steel_grade : String
  results : SimulationResults
  relative_performance : List (String × ℚ)

/-- `MaterialComparisonResponse` from `types/simulation.ts`. -/
structure MaterialComparisonResponse where
  comparison_results : List MaterialComparisonResult
  ranking : List String
  summary : List (String × JsValue)

/-- `createDefaultSimulationRequest` from `services/api.ts` (lines 293-354). -/
def createDefaultSimulationRequest : SimulationRequest :=
  { steel_composition :=
      { grade := some ""
        C := some 0.20
        Si := 0.25
        Mn := 0.80
        Ni := 0.55
        Cr := 0.50
        Mo := 0.20
        V := 0.0
        W := 0.0
        Cu := 0.0
        P := 0.0
        Al := 0.0
        As := 0.0
        Ti := 0.0 }
    carburizing :=
      { temperature := 920
        time_hours := 6.0
        carbon_potential := 1.0
        heating_rate := 5.0
        atmosphere_type := "endothermic"
        gas_flow_rate := 1.0
        mass_transfer_coefficient := 0.0001
        diffusion_temperature := none
        diffusion_time := none }
    quenching :=
      { quench_medium := "oil"
        quench_temperature := 60
        heat_transfer_coefficient := none
        agitation_rate := 1.0
        quench_time := 300
        delay_time := 0 }
    tempering :=
      { temperature := 170
        time_hours := 2.0
        heating_rate := 2.0
        cooling_method := "air"
        multiple_tempers := false
        temper_cycles := 1 }
    geometry :=
      { geometry_type := "cylinder"
        diameter := some 25.0
        length := none
        thickness := none
        characteristic_dimension := some 25.0
        surface_area := none
        volume := none }
    initial_conditions :=
      { initial_grain_size := 20.0
        initial_hardness := none
        surface_condition := "machined"
        prior_heat_treatment := "annealed" }
    simulation_params :=
      { spatial_points := 51
        time_step_carburizing := 60
        time_step_quenching := 1
        max_analysis_depth := 5.0
        convergence_tolerance := 0.000001
        output_resolution := "standard" }
    calculation_id := none }

/-- `Partial<SimulationRequest>`: the argument type of
`validateSimulationRequest`, where every top-level sub-record may be absent. -/
structure SimulationRequestDraft where
  steel_composition : Option SteelCompositionInput
  carburizing : Option CarburizingConditions
  quenching : Option QuenchingConditions
  tempering : Option TemperingConditions
  geometry : Option PartGeometry
  initial_conditions : Option InitialConditions
  simulation_params : Option SimulationParameters
deriving DecidableEq

/-- View a complete request as a draft with every sub-record present. -/
def toDraft (r : SimulationRequest) : SimulationRequestDraft :=
  { steel_composition := some r.steel_composition
    carburizing := some r.carburizing
    quenching := some r.quenching
    tempering := some r.tempering
    geometry := some r.geometry
    initial_conditions := some r.initial_conditions
    simulation_params := some r.simulation_params }

def steelCompositionRequired : String := "Steel composition is required"

def carbonContentError : String := "Carbon content must be between 0.01% and 2.0%"

def carburizingRequired : String := "Carburizing conditions are required"

def carburizingTemperatureError : String := "Carburizing temperature must be between 850°C and 1050°C"

def carburizingTimeError : String := "Carburizing time must be between 0.5 and 24 hours"

def quenchingRequired : String := "Quenching conditions are required"

def temperingRequired : String := "Tempering conditions are required"

def geometryRequired : String := "Part geometry is required"

def characteristicDimensionError : String := "Characteristic dimension must be at least 1 mm"

/-- The steel-composition block of `validateSimulationRequest`
(`!request.steel_composition.C || C < 0.01 || C > 2.0`; `!C` also fires on a
present value of `0`). -/
def compositionErrors (o : Option SteelCompositionInput) : List String :=
  match o with
  | none => [steelCompositionRequired]
  | some sc =>
      match sc.C with
      | none => [carbonContentError]
      | some c => if c = 0 ∨ c < 0.01 ∨ c > 2.0 then [carbonContentError] else []

/-- The carburizing block of `validateSimulationRequest`. -/
def carburizingErrors (o : Option CarburizingConditions) : List String :=
  match o with
  | none => [carburizingRequired]
  | some cb =>
      (if cb.temperature < 850 ∨ cb.temperature > 1050 then [carburizingTemperatureError] else []) ++
      (if cb.time_hours < 0.5 ∨ cb.time_hours > 24 then [carburizingTimeError] else [])

/-- The quenching block of `validateSimulationRequest`: a presence check only. -/
def quenchingErrors (o : Option QuenchingConditions) : List String :=
  match o with
  | none => [quenchingRequired]
  | some _ => []

/-- The tempering block of `validateSimulationRequest`: a presence check only. -/
def temperingErrors (o : Option TemperingConditions) : List String :=
  match o with
  | none => [temperingRequired]
  | some _ => []

/-- The geometry block of `validateSimulationRequest`
(`!geometry.characteristic_dimension || dimension < 1`). -/
def geometryErrors (o : Option PartGeometry) : List String :=
  match o with
  | none => [geometryRequired]
  | some g =>
      match g.characteristic_dimension with
      | none => [characteristicDimensionError]
      | some d => if d = 0 ∨ d < 1 then [characteristicDimensionError] else []

/-- `validateSimulationRequest` from `services/api.ts` (lines 356-396): the
errors pushed by the five blocks, in source order. -/
def validateSimulationRequest (request : SimulationRequestDraft) : List String :=
  compositionErrors request.steel_composition ++
  carburizingErrors request.carburizing ++
  quenchingErrors request.quenching ++
  temperingErrors request.tempering ++
  geometryErrors request.geometry

/-- A JavaScript error object as observed by the catch blocks:
`err.response?.data?.detail` (possibly absent) and `err.message`. -/
structure JsError where
  responseDetail : Option String
  message : String
deriving DecidableEq

/-- JavaScript `a || dflt` on an optional string (`undefined` and `""` are
falsy). -/
def jsOrElse (a : Option String) (dflt : String) : String :=
  match a with
  | some s => if s = "" then dflt else s
  | none => dflt

/-- `err.response?.data?.detail || err.message || fallback` as computed by the
catch blocks in `App.tsx`. -/
def jsErrorMessage (e : JsError) (fallback : String) : String :=
  jsOrElse e.responseDetail (jsOrElse (some e.message) fallback)

/-- The `App` component state touched by `handleSimulationSubmit`:
`results`, `simulationData`, `error`, `loading` and `currentTab`. -/
structure AppState where
  results : Option SimulationResults
  simulationData : Option SimulationRequest
  error : Option String
  loading : Bool
  currentTab : ℕ

/-- The `useState` initial values in `App.tsx`. -/
def initialAppState : AppState :=
  { results := none
    simulationData := none
    error := none
    loading := false
    currentTab := 0 }

/-- `handleSimulationSubmit` from `App.tsx` (lines 195-229).  The two awaited
service calls are oracles: `validateOutcome` is what `validateInputs` resolves
or rejects with, `runOutcome` what `runSimulation` would resolve or reject
with.  The returned `Bool` records whether `runSimulation` was invoked.
Notification toasts are not part of the state; the surfaced error is `error`.
On an invalid validation response the handler throws
`Error(validationResponse.data.error || 'Invalid input parameters')`, which
the catch block turns into that same message (a plain `Error` has no
`response` field). -/
def handleSimulationSubmit
    (validateOutcome : Except JsError ValidationResponse)
    (runOutcome : Except JsError SimulationResults)
    (data : SimulationRequest) (s : AppState) : AppState × Bool :=
  let s0 : AppState := { s with loading := true, error := none }
  match validateOutcome with
  | .error e =>
      ({ s0 with error := some (jsErrorMessage e "Simulation failed"), loading := false }, false)
  | .ok v =>
      if v.valid = false then
        let thrown : JsError := ⟨none, jsOrElse v.error "Invalid input parameters"⟩
        ({ s0 with error := some (jsErrorMessage thrown "Simulation failed"), loading := false }, false)
      else
        match runOutcome with
        | .error e =>
            ({ s0 with error := some (jsErrorMessage e "Simulation failed"), loading := false }, true)
        | .ok r =>
            ({ s0 with results := some r, simulationData := some data,
                       currentTab := 1, loading := false }, true)

/-- One entry of the `qualityMetrics` array in `QualityReport.tsx`
(lines 70-109). -/
structure QualityMetric where
  category : String
  value : ℚ
  target : String
  status : Bool
  score : ℚ
  unit : String

/-- The `qualityMetrics` memo from `QualityReport.tsx` (lines 70-109),
evaluated on present results. -/
def qualityMetrics (results : SimulationResults) : List QualityMetric :=
  [ { category := "Surface Hardness"
      value := results.process_metrics.surface_hardness_hrc
      target := "58-65 HRC"
      status := results.quality_assessment.surface_hardness_ok
      score := if results.quality_assessment.surface_hardness_ok then 100 else 70
      unit := "HRC" },
    { category := "Case Depth"
      value := results.case_depth_results.case_depth_04_carbon
      target := "0.8-1.5 mm"
      status := results.quality_assessment.case_depth_ok
      score := if results.quality_assessment.case_depth_ok then 100 else 75
      unit := "mm" },
    { category := "Core Hardness"
      value := results.process_metrics.core_hardness_hrc
      target := "25-35 HRC"
      status := results.quality_assessment.core_hardness_ok
      score := if results.quality_assessment.core_hardness_ok then 100 else 65
      unit := "HRC" },
    { category := "Grain Size"
      value := results.process_metrics.grain_size_surface
      target := "< 50 μm"
      status := results.quality_assessment.grain_size_ok
      score := if results.quality_assessment.grain_size_ok then 100 else 80
      unit := "μm" } ]

/-- The `overallScore` memo from `QualityReport.tsx` (lines 112-115):
`reduce((sum, m) => sum + m.score, 0) / qualityMetrics.length`. -/
def overallScore (results : SimulationResults) : ℚ :=
  ((qualityMetrics results).map QualityMetric.score).sum /
    ((qualityMetrics results).length : ℚ)

/-- `handleQuenchMediumChange` from `InputForm.tsx` (lines 145-155), acting on
the `quenching` sub-record of the form values.  The guard
`if (medium && quenchMedia?.media && quenchMedia.media[medium])` skips the
empty-string key and any key absent from the table. -/
def handleQuenchMediumChange (qm : QuenchMediaResponse) (medium : String)
    (q : QuenchingConditions) : QuenchingConditions :=
  if medium ≠ "" then
    match qm.media.lookup medium with
    | some mediaData =>
        let q1 : QuenchingConditions :=
          { q with quench_medium := medium,
                   quench_temperature := mediaData.typical_temperature }
        match mediaData.heat_transfer_coefficient_range with
        | some (lo, hi) => { q1 with heat_transfer_coefficient := some ((lo + hi) / 2) }
        | none => q1
    | none => q
  else q

/-- The `MaterialComparison` component state touched by
`handleRunComparison`. -/
structure ComparisonState where
  comparisonResults : Option MaterialComparisonResponse
  error : Option String

def comparisonMinGradesError : String := "Please select at least 2 steel grades for comparison"

/-- `handleRunComparison` from `MaterialComparison.tsx` (lines 132-145).
`onCompare` is an oracle for what the awaited comparison callback resolves or
rejects with; the returned `Bool` records whether it was invoked.  On a
rejection the catch block stores `err.message || 'Comparison failed'`. -/
def handleRunComparison
    (onCompare : Except JsError MaterialComparisonResponse)
    (selectedGrades : List String)
    (s : ComparisonState) : ComparisonState × Bool :=
  if selectedGrades.length < 2 then
    ({ s with error := some comparisonMinGradesError }, false)
  else
    match onCompare with
    | .ok results =>
        ({ s with error := none, comparisonResults := some results }, true)
    | .error e =>
        ({ s with error := some (jsOrElse (some e.message) "Comparison failed") }, true)

end CQT

namespace CoreModel

/-- Modelled from the spec: the `SteelComposition` value of the numerical
core (§3); the CompositionModel component itself is not among the sources
under `src/` (only the frontend is), so the core data model follows the
specification's words.  A mapping of the thirteen element symbols to
weight-percents. -/
structure SteelComposition where
  C : ℚ
  Si : ℚ
  Mn : ℚ
  Ni : ℚ
  Cr : ℚ
  Mo : ℚ
  V : ℚ
  W : ℚ
  Cu : ℚ
  P : ℚ
  Al : ℚ
  As : ℚ
  Ti : ℚ
deriving DecidableEq

/-- Modelled from the spec: the documented per-element valid ranges.  The
numeric bounds are the ones the repository documents in the frontend
`validationSchema` (`InputForm.tsx` lines 56-73): C ∈ [0.01, 2], Si ∈ [0, 2],
Mn ∈ [0, 3], Ni ∈ [0, 5], Cr ∈ [0, 3], Mo ∈ [0, 1], V ∈ [0, 0.5], W ∈ [0, 1],
Cu ∈ [0, 1], P, Al, As, Ti ∈ [0, 0.1]. -/
def validComposition (x : SteelComposition) : Prop :=
  0.01 ≤ x.C ∧ x.C ≤ 2 ∧
    0 ≤ x.Si ∧ x.Si ≤ 2 ∧
    0 ≤ x.Mn ∧ x.Mn ≤ 3 ∧
    0 ≤ x.Ni ∧ x.Ni ≤ 5 ∧
    0 ≤ x.Cr ∧ x.Cr ≤ 3 ∧
    0 ≤ x.Mo ∧ x.Mo ≤ 1 ∧
    0 ≤ x.V ∧ x.V ≤ 0.5 ∧
    0 ≤ x.W ∧ x.W ≤ 1 ∧
    0 ≤ x.Cu ∧ x.Cu ≤ 1 ∧
    0 ≤ x.P ∧ x.P ≤ 0.1 ∧
    0 ≤ x.Al ∧ x.Al ≤ 0.1 ∧
    0 ≤ x.As ∧ x.As ≤ 0.1 ∧
    0 ≤ x.Ti ∧ x.Ti ≤ 0.1

instance validComposition.decidable (x : SteelComposition) :
    Decidable (validComposition x) := by
  unfold validComposition
  infer_instance

/-- Modelled from the spec: "a linear combination of element weight-percents
with fixed per-element coefficients (additive correction model)" (§4.1).
The coefficients are the injected calibrated-constants dataset (§9). -/
structure LinearModel where
  base : ℚ
  cC : ℚ
  cSi : ℚ
  cMn : ℚ
  cNi : ℚ
  cCr : ℚ
  cMo : ℚ
  cV : ℚ
  cW : ℚ
  cCu : ℚ
  cP : ℚ
  cAl : ℚ
  cAs : ℚ
  cTi : ℚ
deriving DecidableEq

def LinearModel.eval (m : LinearModel) (x : SteelComposition) : ℚ :=
  m.base + m.cC * x.C + m.cSi * x.Si + m.cMn * x.Mn + m.cNi * x.Ni +
    m.cCr * x.Cr + m.cMo * x.Mo + m.cV * x.V + m.cW * x.W + m.cCu * x.Cu +
    m.cP * x.P + m.cAl * x.Al + m.cAs * x.As + m.cTi * x.Ti

/-- Modelled from the spec: the injected regression constants for the
CompositionModel — AE3, AE1 and Bs linear regressions, plus the Ms base
linear formula with its high-carbon nonlinear correction (active above a
carbon threshold, lowering Ms at high carbon) (§4.1, §9). -/
structure CriticalTemperaturesModel where
  ae3 : LinearModel
  ae1 : LinearModel
  ms : LinearModel
  msCarbonThreshold : ℚ
  msHighCarbonCoeff : ℚ
  bs : LinearModel
deriving DecidableEq

/-- Modelled from the spec: Ms = base linear formula minus a nonlinear
(quadratic) correction active above the carbon threshold (§4.1). -/
def msTemperature (m : CriticalTemperaturesModel) (x : SteelComposition) : ℚ :=
  m.ms.eval x -
    (if x.C > m.msCarbonThreshold then m.msHighCarbonCoeff * (x.C - m.msCarbonThreshold) ^ 2 else 0)

/-- Modelled from the spec: the `CriticalTemperatures` record derived once
from a composition (§3). -/
structure CriticalTemps where
  ae3 : ℚ
  ae1 : ℚ
  ms : ℚ
  bs : ℚ
deriving DecidableEq

/-- Modelled from the spec: the error taxonomy entry raised by the
CompositionModel (§4.1, §7). -/
inductive CompositionError where
  | invalidComposition (msg : String)
deriving DecidableEq

/-- Modelled from the spec: `criticalTemperatures(composition)` (§4.1).
"Fails with `InvalidComposition` when any element is outside its valid range,
or when the combination yields AE3 ≤ AE1". -/
def criticalTemperatures (m : CriticalTemperaturesModel) (x : SteelComposition) :
    Except CompositionError CriticalTemps :=
  if validComposition x then
    let ae3 := m.ae3.eval x
    let ae1 := m.ae1.eval x
    if ae3 ≤ ae1 then
      .error (.invalidComposition "derived ordering AE3 <= AE1 is physically impossible")
    else
      .ok { ae3 := ae3, ae1 := ae1, ms := msTemperature m x, bs := m.bs.eval x }
  else
    .error (.invalidComposition "element outside its valid range")

end CoreModel

namespace CQT

/-- The default request with the quenching bath temperature driven far outside
its documented 20-150 °C range (`validationSchema.quenching` in
`InputForm.tsx`), every field `validateSimulationRequest` checks left valid. -/
def outOfRangeQuenchRequest : SimulationRequestDraft :=
  toDraft { createDefaultSimulationRequest with
    quenching := { createDefaultSimulationRequest.quenching with quench_temperature := 1000 } }

/-- The default request with the carburizing temperature below its 850 °C
minimum. -/
def coldCarburizingRequest : SimulationRequestDraft :=
  toDraft { createDefaultSimulationRequest with
    carburizing := { createDefaultSimulationRequest.carburizing with temperature := 800 } }

/-- The default request with the carburizing time set to zero. -/
def zeroTimeRequest : SimulationRequestDraft :=
  toDraft { createDefaultSimulationRequest with
    carburizing := { createDefaultSimulationRequest.carburizing with time_hours := 0 } }

/-- A validation response reporting the request invalid, with no error
detail. -/
def invalidValidationResponse : ValidationResponse :=
  { valid := false, error := none, warnings := [] }

/-- A bare rejection with no `response` payload and an empty message. -/
def bareJsError : JsError := { responseDetail := none, message := "" }

/-- A one-entry quench-media table: an oil bath at 60 °C whose
heat-transfer-coefficient range is 200-1000. -/
def oilMediaTable : QuenchMediaResponse :=
  { media := [("oil",
      { name := "Oil"
        typical_temperature := 60
        heat_transfer_coefficient_range := some (200, 1000)
        description := "conventional quench oil"
        applications := [] })] }

/-- The initial `MaterialComparison` component state. -/
def initialComparisonState : ComparisonState :=
  { comparisonResults := none, error := none }

end CQT

namespace CoreModel

/-- Concrete injected constants with AE3 above AE1 on low-alloy steels:
AE3 = 900 - 200·C, AE1 = 723 - 10·Mn, Ms = 539 - 423·C with a quadratic
high-carbon correction above 0.5 wt% C, Bs = 656. -/
def sampleConstants : CriticalTemperaturesModel :=
  { ae3 := { base := 900, cC := -200, cSi := 0, cMn := 0, cNi := 0, cCr := 0, cMo := 0,
             cV := 0, cW := 0, cCu := 0, cP := 0, cAl := 0, cAs := 0, cTi := 0 }
    ae1 := { base := 723, cC := 0, cSi := 0, cMn := -10, cNi := 0, cCr := 0, cMo := 0,
             cV := 0, cW := 0, cCu := 0, cP := 0, cAl := 0, cAs := 0, cTi := 0 }
    ms := { base := 539, cC := -423, cSi := 0, cMn := 0, cNi := 0, cCr := 0, cMo := 0,
            cV := 0, cW := 0, cCu := 0, cP := 0, cAl := 0, cAs := 0, cTi := 0 }
    msCarbonThreshold := 0.5
    msHighCarbonCoeff := 100
    bs := { base := 656, cC := 0, cSi := 0, cMn := 0, cNi := 0, cCr := 0, cMo := 0,
            cV := 0, cW := 0, cCu := 0, cP := 0, cAl := 0, cAs := 0, cTi := 0 } }

/-- A degenerate constants dataset whose regressions yield AE3 ≤ AE1
everywhere (AE3 = 700 < 723 = AE1). -/
def degenerateConstants : CriticalTemperaturesModel :=
  { sampleConstants with
    ae3 := { sampleConstants.ae3 with base := 700, cC := 0 } }

/-- The reference 20MnCr-type composition of the end-to-end scenario. -/
def referenceComposition : SteelComposition :=
  { C := 0.20, Si := 0.25, Mn := 0.80, Ni := 0.55, Cr := 0.50, Mo := 0.20,
    V := 0, W := 0, Cu := 0, P := 0, Al := 0, As := 0, Ti := 0 }

/-- A composition with carbon far outside its documented range. -/
def invalidCarbonComposition : SteelComposition :=
  { referenceComposition with C := 3 }

end CoreModel

namespace CQT

/-! ## Helper lemmas about the validation blocks -/

lemma compositionErrors_subset {x : String} {o : Option SteelCompositionInput}
    (h : x ∈ compositionErrors o) :
    x = steelCompositionRequired ∨ x = carbonContentError := by
  cases o with
  | none => exact Or.inl (by simpa [compositionErrors] using h)
  | some sc =>
    cases hC : sc.C with
    | none => simp [compositionErrors, hC] at h; simp [h]
    | some c =>
      simp only [compositionErrors, hC] at h
      split_ifs at h <;> simp_all

lemma carburizingErrors_subset {x : String} {o : Option CarburizingConditions}
    (h : x ∈ carburizingErrors o) :
    x = carburizingRequired ∨ x = carburizingTemperatureError ∨ x = carburizingTimeError := by
  cases o with
  | none => exact Or.inl (by simpa [carburizingErrors] using h)
  | some cb =>
    simp only [carburizingErrors, List.mem_append] at h
    rcases h with h | h <;> split_ifs at h <;> simp_all

lemma quenchingErrors_subset {x : String} {o : Option QuenchingConditions}
    (h : x ∈ quenchingErrors o) : x = quenchingRequired := by
  cases o <;> simp_all [quenchingErrors]

lemma temperingErrors_subset {x : String} {o : Option TemperingConditions}
    (h : x ∈ temperingErrors o) : x = temperingRequired := by
  cases o <;> simp_all [temperingErrors]

lemma geometryErrors_subset {x : String} {o : Option PartGeometry}
    (h : x ∈ geometryErrors o) :
    x = geometryRequired ∨ x = characteristicDimensionError := by
  cases o with
  | none => exact Or.inl (by simpa [geometryErrors] using h)
  | some g =>
    cases hd : g.characteristic_dimension with
    | none => simp [geometryErrors, hd] at h; simp [h]
    | some d =>
      simp only [geometryErrors, hd] at h
      split_ifs at h <;> simp_all

lemma carbon_mem_compositionErrors (sc : SteelCompositionInput) :
    carbonContentError ∈ compositionErrors (some sc) ↔
      sc.C = none ∨ ∃ c, sc.C = some c ∧ (c = 0 ∨ c < 0.01 ∨ c > 2.0) := by
  cases hC : sc.C with
  | none => simp [compositionErrors, hC]
  | some c =>
    simp only [compositionErrors, hC]
    split_ifs with h <;> simp [h]

lemma temperature_mem_carburizingErrors (cb : CarburizingConditions) :
    carburizingTemperatureError ∈ carburizingErrors (some cb) ↔
      cb.temperature < 850 ∨ cb.temperature > 1050 := by
  simp only [carburizingErrors, List.mem_append]
  split_ifs with h1 h2 <;>
    simp_all [carburizingTemperatureError, carburizingTimeError]

lemma time_mem_carburizingErrors (cb : CarburizingConditions) :
    carburizingTimeError ∈ carburizingErrors (some cb) ↔
      cb.time_hours < 0.5 ∨ cb.time_hours > 24 := by
  simp only [carburizingErrors, List.mem_append]
  split_ifs with h1 h2 <;>
    simp_all [carburizingTemperatureError, carburizingTimeError]

lemma dimension_mem_geometryErrors (g : PartGeometry) :
    characteristicDimensionError ∈ geometryErrors (some g) ↔
      g.characteristic_dimension = none ∨
      ∃ d, g.characteristic_dimension = some d ∧ (d = 0 ∨ d < 1) := by
  cases hd : g.characteristic_dimension with
  | none => simp [geometryErrors, hd]
  | some d =>
    simp only [geometryErrors, hd]
    split_ifs with h <;> simp [h]

end CQT

namespace CQT

lemma mem_validate_of_composition (req : SimulationRequestDraft) {x : String}
    (h : x ∈ compositionErrors req.steel_composition) :
    x ∈ validateSimulationRequest req := by
  simp only [validateSimulationRequest, List.mem_append]
  exact Or.inl (Or.inl (Or.inl (Or.inl h)))

lemma mem_validate_of_carburizing (req : SimulationRequestDraft) {x : String}
    (h : x ∈ carburizingErrors req.carburizing) :
    x ∈ validateSimulationRequest req := by
  simp only [validateSimulationRequest, List.mem_append]
  exact Or.inl (Or.inl (Or.inl (Or.inr h)))

lemma mem_validate_of_geometry (req : SimulationRequestDraft) {x : String}
    (h : x ∈ geometryErrors req.geometry) :
    x ∈ validateSimulationRequest req := by
  simp only [validateSimulationRequest, List.mem_append]
  exact Or.inr h

/-- C3: `validateSimulationRequest` returns exactly the matching error strings
for the checks it performs, and an empty list otherwise: the carbon error
appears iff `steel_composition.C` is absent, zero, below 0.01 or above 2.0;
the carburizing temperature error iff the temperature is below 850 or above
1050; the carburizing time error iff `time_hours` is below 0.5 or above 24;
the characteristic-dimension error iff the dimension is absent, zero or below
1; and for every request with all five sub-records present and those fields
in range the returned error list is empty. -/
theorem validateSimulationRequest_exact (req : SimulationRequestDraft) :
    (∀ sc, req.steel_composition = some sc →
      (carbonContentError ∈ validateSimulationRequest req ↔
        sc.C = none ∨ ∃ c, sc.C = some c ∧ (c = 0 ∨ c < 0.01 ∨ c > 2.0)))
    ∧ (∀ cb, req.carburizing = some cb →
      (carburizingTemperatureError ∈ validateSimulationRequest req ↔
        cb.temperature < 850 ∨ cb.temperature > 1050))
    ∧ (∀ cb, req.carburizing = some cb →
      (carburizingTimeError ∈ validateSimulationRequest req ↔
        cb.time_hours < 0.5 ∨ cb.time_hours > 24))
    ∧ (∀ g, req.geometry = some g →
      (characteristicDimensionError ∈ validateSimulationRequest req ↔
        g.characteristic_dimension = none ∨
        ∃ d, g.characteristic_dimension = some d ∧ (d = 0 ∨ d < 1)))
    ∧ (∀ sc cb q t g c d,
        req.steel_composition = some sc → req.carburizing = some cb →
        req.quenching = some q → req.tempering = some t → req.geometry = some g →
        sc.C = some c → 0.01 ≤ c → c ≤ 2.0 →
        850 ≤ cb.temperature → cb.temperature ≤ 1050 →
        0.5 ≤ cb.time_hours → cb.time_hours ≤ 24 →
        g.characteristic_dimension = some d → 1 ≤ d →
        validateSimulationRequest req = []) := by
  refine ⟨?_, ?_, ?_, ?_, ?_⟩
  · intro sc hsc
    constructor
    · intro h
      simp only [validateSimulationRequest, List.mem_append] at h
      rcases h with (((h | h) | h) | h) | h
      · rw [hsc] at h
        exact (carbon_mem_compositionErrors sc).mp h
      · rcases carburizingErrors_subset h with h | h | h <;> exact absurd h (by decide)
      · exact absurd (quenchingErrors_subset h) (by decide)
      · exact absurd (temperingErrors_subset h) (by decide)
      · rcases geometryErrors_subset h with h | h <;> exact absurd h (by decide)
    · intro h
      apply mem_validate_of_composition
      rw [hsc]
      exact (carbon_mem_compositionErrors sc).mpr h
  · intro cb hcb
    constructor
    · intro h
      simp only [validateSimulationRequest, List.mem_append] at h
      rcases h with (((h | h) | h) | h) | h
      · rcases compositionErrors_subset h with h | h <;> exact absurd h (by decide)
      · rw [hcb] at h
        exact (temperature_mem_carburizingErrors cb).mp h
      · exact absurd (quenchingErrors_subset h) (by decide)
      · exact absurd (temperingErrors_subset h) (by decide)
      · rcases geometryErrors_subset h with h | h <;> exact absurd h (by decide)
    · intro h
      apply mem_validate_of_carburizing
      rw [hcb]
      exact (temperature_mem_carburizingErrors cb).mpr h
  · intro cb hcb
    constructor
    · intro h
      simp only [validateSimulationRequest, List.mem_append] at h
      rcases h with (((h | h) | h) | h) | h
      · rcases compositionErrors_subset h with h | h <;> exact absurd h (by decide)
      · rw [hcb] at h
        exact (time_mem_carburizingErrors cb).mp h
      · exact absurd (quenchingErrors_subset h) (by decide)
      · exact absurd (temperingErrors_subset h) (by decide)
      · rcases geometryErrors_subset h with h | h <;> exact absurd h (by decide)
    · intro h
      apply mem_validate_of_carburizing
      rw [hcb]
      exact (time_mem_carburizingErrors cb).mpr h
  · intro g hg
    constructor
    · intro h
      simp only [validateSimulationRequest, List.mem_append] at h
      rcases h with (((h | h) | h) | h) | h
      · rcases compositionErrors_subset h with h | h <;> exact absurd h (by decide)
      · rcases carburizingErrors_subset h with h | h | h <;> exact absurd h (by decide)
      · exact absurd (quenchingErrors_subset h) (by decide)
      · exact absurd (temperingErrors_subset h) (by decide)
      · rw [hg] at h
        exact (dimension_mem_geometryErrors g).mp h
    · intro h
      apply mem_validate_of_geometry
      rw [hg]
      exact (dimension_mem_geometryErrors g).mpr h
  · intro sc cb q t g c d hsc hcb hq ht hg hC hc1 hc2 ht1 ht2 hh1 hh2 hd hd1
    have hcomp : compositionErrors (some sc) = [] := by
      have hno : ¬(c = 0 ∨ c < 0.01 ∨ c > 2.0) := by
        push_neg
        refine ⟨?_, by linarith, by linarith⟩
        intro h0
        rw [h0] at hc1
        norm_num at hc1
      simp [compositionErrors, hC, hno]
    have hcarb : carburizingErrors (some cb) = [] := by
      have hnt : ¬(cb.temperature < 850 ∨ cb.temperature > 1050) := by
        push_neg
        exact ⟨ht1, ht2⟩
      have hnh : ¬(cb.time_hours < 0.5 ∨ cb.time_hours > 24) := by
        push_neg
        exact ⟨hh1, hh2⟩
      simp [carburizingErrors, hnt, hnh]
    have hgeom : geometryErrors (some g) = [] := by
      have hnd : ¬(d = 0 ∨ d < 1) := by
        push_neg
        refine ⟨?_, by linarith⟩
        intro h0
        rw [h0] at hd1
        norm_num at hd1
      simp [geometryErrors, hd, hnd]
    simp [validateSimulationRequest, hsc, hcb, hq, ht, hg, hcomp, hcarb, hgeom,
      quenchingErrors, temperingErrors]

/-- C3 witness: the default request has all five sub-records present and every
checked field in range, and validates to the empty error list. -/
theorem validateSimulationRequest_exact_witness :
    validateSimulationRequest (toDraft createDefaultSimulationRequest) = [] :=
  (validateSimulationRequest_exact (toDraft createDefaultSimulationRequest)).2.2.2.2
    _ _ _ _ _ _ _ rfl rfl rfl rfl rfl rfl
    (by norm_num [createDefaultSimulationRequest])
    (by norm_num [createDefaultSimulationRequest])
    (by norm_num [createDefaultSimulationRequest])
    (by norm_num [createDefaultSimulationRequest])
    (by norm_num [createDefaultSimulationRequest])
    (by norm_num [createDefaultSimulationRequest])
    rfl
    (by norm_num [createDefaultSimulationRequest])

end CQT

namespace CQT

/-- C2 counterexample: a request whose quenching bath temperature (1000 °C) is
far outside its documented 20-150 °C range, with every field that
`validateSimulationRequest` checks in range, still validates to the empty
error list — so an out-of-range quenching numeric field does not cause
client-side validation to report an error. -/
theorem validate_ignores_quenching_range_cx :
    validateSimulationRequest outOfRangeQuenchRequest = [] ∧
    ∃ q, outOfRangeQuenchRequest.quenching = some q ∧ q.quench_temperature > 150 := by
  constructor
  · norm_num [outOfRangeQuenchRequest, validateSimulationRequest, toDraft,
      createDefaultSimulationRequest, compositionErrors, carburizingErrors,
      quenchingErrors, temperingErrors, geometryErrors]
  · exact ⟨_, rfl, by norm_num [outOfRangeQuenchRequest, toDraft, createDefaultSimulationRequest]⟩

/-- C2 (amended): `validateSimulationRequest` flags out-of-range values only
for the fields it checks — carbon content, carburizing temperature and time,
and the characteristic dimension; its result never depends on the contents of
a present quenching or tempering sub-record, so out-of-range values there are
not flagged by it (their ranges are enforced by the form's Yup
`validationSchema` instead). -/
theorem validate_flags_checked_fields :
    (∀ req cb, req.carburizing = some cb →
      (cb.temperature < 850 ∨ cb.temperature > 1050 ∨
        cb.time_hours < 0.5 ∨ cb.time_hours > 24) →
      validateSimulationRequest req ≠ [])
    ∧ (∀ req sc c, req.steel_composition = some sc → sc.C = some c →
      (c < 0.01 ∨ c > 2.0) → validateSimulationRequest req ≠ [])
    ∧ (∀ req g d, req.geometry = some g → g.characteristic_dimension = some d →
      d < 1 → validateSimulationRequest req ≠ [])
    ∧ (∀ (req : SimulationRequestDraft) (q q' : QuenchingConditions),
        validateSimulationRequest { req with quenching := some q }
        = validateSimulationRequest { req with quenching := some q' })
    ∧ (∀ (req : SimulationRequestDraft) (t t' : TemperingConditions),
        validateSimulationRequest { req with tempering := some t }
        = validateSimulationRequest { req with tempering := some t' }) := by
  refine ⟨?_, ?_, ?_, ?_, ?_⟩
  · intro req cb hcb h
    rcases h with h | h | h | h
    · exact List.ne_nil_of_mem (mem_validate_of_carburizing req
        (hcb ▸ (temperature_mem_carburizingErrors cb).mpr (Or.inl h)))
    · exact List.ne_nil_of_mem (mem_validate_of_carburizing req
        (hcb ▸ (temperature_mem_carburizingErrors cb).mpr (Or.inr h)))
    · exact List.ne_nil_of_mem (mem_validate_of_carburizing req
        (hcb ▸ (time_mem_carburizingErrors cb).mpr (Or.inl h)))
    · exact List.ne_nil_of_mem (mem_validate_of_carburizing req
        (hcb ▸ (time_mem_carburizingErrors cb).mpr (Or.inr h)))
  · intro req sc c hsc hC h
    refine List.ne_nil_of_mem (mem_validate_of_composition req
      (hsc ▸ (carbon_mem_compositionErrors sc).mpr ?_))
    exact Or.inr ⟨c, hC, by tauto⟩
  · intro req g d hg hd h
    refine List.ne_nil_of_mem (mem_validate_of_geometry req
      (hg ▸ (dimension_mem_geometryErrors g).mpr ?_))
    exact Or.inr ⟨d, hd, Or.inr h⟩
  · intro req q q'
    obtain ⟨osc, ocb, oq, ot, og, oic, osp⟩ := req
    simp [validateSimulationRequest, quenchingErrors]
  · intro req t t'
    obtain ⟨osc, ocb, oq, ot, og, oic, osp⟩ := req
    simp [validateSimulationRequest, temperingErrors]

/-- C2 witness: a request whose carburizing temperature is below 850 °C is
flagged with a non-empty error list. -/
theorem validate_flags_checked_fields_witness :
    validateSimulationRequest coldCarburizingRequest ≠ [] :=
  validate_flags_checked_fields.1 coldCarburizingRequest _ rfl
    (Or.inl (by norm_num [coldCarburizingRequest, toDraft, createDefaultSimulationRequest]))

/-- C4 counterexample: a request with `carburizing.time_hours = 0` does not
pass input validation — `validateSimulationRequest` reports the carburizing
time error, so the request is rejected before any solving. -/
theorem zero_time_rejected_cx :
    carburizingTimeError ∈ validateSimulationRequest zeroTimeRequest ∧
    validateSimulationRequest zeroTimeRequest ≠ [] := by
  have h : carburizingTimeError ∈ validateSimulationRequest zeroTimeRequest := by
    norm_num [zeroTimeRequest, validateSimulationRequest, toDraft,
      createDefaultSimulationRequest, compositionErrors, carburizingErrors,
      quenchingErrors, temperingErrors, geometryErrors]
  exact ⟨h, List.ne_nil_of_mem h⟩

/-- C4 (amended): setting carburizing time to zero is rejected by client-side
validation rather than accepted as a degenerate input: any request whose
present carburizing sub-record has `time_hours = 0` gets the carburizing-time
error (the documented minimum is 0.5 h); the zero-time no-op carbon profile is
a property of the core solver, not of inputs admitted by the frontend. -/
theorem zero_carburizing_time_flagged (req : SimulationRequestDraft)
    (cb : CarburizingConditions) (hcb : req.carburizing = some cb)
    (h0 : cb.time_hours = 0) :
    carburizingTimeError ∈ validateSimulationRequest req := by
  apply mem_validate_of_carburizing
  rw [hcb]
  refine (time_mem_carburizingErrors cb).mpr (Or.inl ?_)
  rw [h0]
  norm_num

/-- C4 witness: the zero-time request is flagged. -/
theorem zero_carburizing_time_flagged_witness :
    carburizingTimeError ∈ validateSimulationRequest zeroTimeRequest :=
  zero_carburizing_time_flagged zeroTimeRequest _ rfl rfl

end CQT

namespace CQT

/-- C6: `createDefaultSimulationRequest` returns exactly the reference
end-to-end scenario: composition C=0.20, Si=0.25, Mn=0.80, Ni=0.55, Cr=0.50,
Mo=0.20 with V, W, Cu, P, Al, As, Ti all 0; carburizing at 920 °C for 6 h at
1.0 % carbon potential; oil quench at 60 °C; temper at 170 °C for 2 h. -/
theorem createDefault_matches_reference_scenario :
    createDefaultSimulationRequest.steel_composition.C = some 0.20 ∧
    createDefaultSimulationRequest.steel_composition.Si = 0.25 ∧
    createDefaultSimulationRequest.steel_composition.Mn = 0.80 ∧
    createDefaultSimulationRequest.steel_composition.Ni = 0.55 ∧
    createDefaultSimulationRequest.steel_composition.Cr = 0.50 ∧
    createDefaultSimulationRequest.steel_composition.Mo = 0.20 ∧
    createDefaultSimulationRequest.steel_composition.V = 0 ∧
    createDefaultSimulationRequest.steel_composition.W = 0 ∧
    createDefaultSimulationRequest.steel_composition.Cu = 0 ∧
    createDefaultSimulationRequest.steel_composition.P = 0 ∧
    createDefaultSimulationRequest.steel_composition.Al = 0 ∧
    createDefaultSimulationRequest.steel_composition.As = 0 ∧
    createDefaultSimulationRequest.steel_composition.Ti = 0 ∧
    createDefaultSimulationRequest.carburizing.temperature = 920 ∧
    createDefaultSimulationRequest.carburizing.time_hours = 6.0 ∧
    createDefaultSimulationRequest.carburizing.carbon_potential = 1.0 ∧
    createDefaultSimulationRequest.quenching.quench_medium = "oil" ∧
    createDefaultSimulationRequest.quenching.quench_temperature = 60 ∧
    createDefaultSimulationRequest.tempering.temperature = 170 ∧
    createDefaultSimulationRequest.tempering.time_hours = 2.0 := by
  norm_num [createDefaultSimulationRequest]

/-- C7: the result structure delivered to the UI layer carries every field the
output contract names — per-node distance, carbon, hardness in Vickers and
Rockwell-C, grain size and phase fractions; carburizing and quenching
time/temperature history arrays; critical temperatures; the case-depth
metrics including effective and total case depth; a quality assessment with a
letter grade and boolean pass/fail flags; a warnings list; and the
fatal-error indicator (`errors` plus `validation_status`).  Every
`SimulationResults` value is reassembled in full from exactly these fields. -/
theorem simulationResults_contract_fields (r : SimulationResults) :
    r = { calculation_id := r.calculation_id
          timestamp := r.timestamp
          computation_time := r.computation_time
          property_profiles :=
            { distance_mm := r.property_profiles.distance_mm
              carbon_profile := r.property_profiles.carbon_profile
              hardness_hv := r.property_profiles.hardness_hv
              hardness_hrc := r.property_profiles.hardness_hrc
              grain_size := r.property_profiles.grain_size
              phase_fractions := r.property_profiles.phase_fractions }
          thermal_profiles :=
            { time_carburizing := r.thermal_profiles.time_carburizing
              temperature_carburizing := r.thermal_profiles.temperature_carburizing
              time_quenching := r.thermal_profiles.time_quenching
              temperature_quenching := r.thermal_profiles.temperature_quenching
              cooling_rate := r.thermal_profiles.cooling_rate
              surface_heat_flux := r.thermal_profiles.surface_heat_flux }
          case_depth_results :=
            { case_depth_04_carbon := r.case_depth_results.case_depth_04_carbon
              case_depth_03_carbon := r.case_depth_results.case_depth_03_carbon
              case_depth_50_hrc := r.case_depth_results.case_depth_50_hrc
              case_depth_55_hrc := r.case_depth_results.case_depth_55_hrc
              effective_case_depth := r.case_depth_results.effective_case_depth
              total_case_depth := r.case_depth_results.total_case_depth }
          process_metrics := r.process_metrics
          critical_temperatures :=
            { ae3_temperature := r.critical_temperatures.ae3_temperature
              ae1_temperature := r.critical_temperatures.ae1_temperature
              ms_temperature_core := r.critical_temperatures.ms_temperature_core
              ms_temperature_surface := r.critical_temperatures.ms_temperature_surface
              bs_temperature := r.critical_temperatures.bs_temperature }
          quality_assessment :=
            { gear_requirements_met := r.quality_assessment.gear_requirements_met
              surface_hardness_ok := r.quality_assessment.surface_hardness_ok
              case_depth_ok := r.quality_assessment.case_depth_ok
              core_hardness_ok := r.quality_assessment.core_hardness_ok
              grain_size_ok := r.quality_assessment.grain_size_ok
              overall_grade := r.quality_assessment.overall_grade
              recommendations := r.quality_assessment.recommendations }
          input_summary := r.input_summary
          warnings := r.warnings
          errors := r.errors
          validation_status := r.validation_status } := rfl

end CQT

namespace CQT

lemma overallScore_eq (r : SimulationResults) :
    overallScore r =
      ((if r.quality_assessment.surface_hardness_ok then (100 : ℚ) else 70) +
       ((if r.quality_assessment.case_depth_ok then (100 : ℚ) else 75) +
        ((if r.quality_assessment.core_hardness_ok then (100 : ℚ) else 65) +
         (if r.quality_assessment.grain_size_ok then (100 : ℚ) else 80)))) / 4 := by
  simp [overallScore, qualityMetrics]

/-- C8: the overall quality score is the arithmetic mean of the four
per-metric scores (100 when the corresponding pass flag is true, otherwise
70, 75, 65 and 80 respectively); it always lies in [72.5, 100], equals 100
exactly when all four flags are true, and flipping any single flag to true
never decreases it. -/
theorem overallScore_spec (r : SimulationResults) :
    overallScore r =
      ((if r.quality_assessment.surface_hardness_ok then (100 : ℚ) else 70) +
       (if r.quality_assessment.case_depth_ok then (100 : ℚ) else 75) +
       (if r.quality_assessment.core_hardness_ok then (100 : ℚ) else 65) +
       (if r.quality_assessment.grain_size_ok then (100 : ℚ) else 80)) / 4
    ∧ (72.5 : ℚ) ≤ overallScore r
    ∧ overallScore r ≤ 100
    ∧ (overallScore r = 100 ↔
        r.quality_assessment.surface_hardness_ok = true ∧
        r.quality_assessment.case_depth_ok = true ∧
        r.quality_assessment.core_hardness_ok = true ∧
        r.quality_assessment.grain_size_ok = true)
    ∧ overallScore r ≤ overallScore
        { r with quality_assessment :=
            { r.quality_assessment with surface_hardness_ok := true } }
    ∧ overallScore r ≤ overallScore
        { r with quality_assessment :=
            { r.quality_assessment with case_depth_ok := true } }
    ∧ overallScore r ≤ overallScore
        { r with quality_assessment :=
            { r.quality_assessment with core_hardness_ok := true } }
    ∧ overallScore r ≤ overallScore
        { r with quality_assessment :=
            { r.quality_assessment with grain_size_ok := true } } := by
  simp only [overallScore_eq]
  cases h1 : r.quality_assessment.surface_hardness_ok <;>
    cases h2 : r.quality_assessment.case_depth_ok <;>
    cases h3 : r.quality_assessment.core_hardness_ok <;>
    cases h4 : r.quality_assessment.grain_size_ok <;>
    norm_num

end CQT

namespace CQT

lemma jsOrElse_ne_empty (o : Option String) (d : String) (hd : d ≠ "") :
    jsOrElse o d ≠ "" := by
  cases o with
  | none => simpa [jsOrElse] using hd
  | some s => by_cases h : s = "" <;> simp [jsOrElse, h, hd]

/-- C1: when the validation step reports the request invalid, the simulation
endpoint is never invoked for that submission: `handleSimulationSubmit` awaits
`validateInputs` first, and on `valid = false` it raises the validation error
(surfaced to the user through the error state) without calling
`runSimulation`, leaving the stored results unchanged. -/
theorem handleSimulationSubmit_invalid_blocks_run
    (v : ValidationResponse) (run : Except JsError SimulationResults)
    (data : SimulationRequest) (s : AppState)
    (hvalid : v.valid = false) :
    (handleSimulationSubmit (.ok v) run data s).2 = false ∧
    (handleSimulationSubmit (.ok v) run data s).1.results = s.results ∧
    (handleSimulationSubmit (.ok v) run data s).1.error
      = some (jsOrElse v.error "Invalid input parameters") := by
  have hmsg : jsOrElse v.error "Invalid input parameters" ≠ "" :=
    jsOrElse_ne_empty v.error "Invalid input parameters" (by decide)
  simp only [jsOrElse] at hmsg
  refine ⟨?_, ?_, ?_⟩ <;>
    simp [handleSimulationSubmit, hvalid, jsErrorMessage, jsOrElse, hmsg]

/-- C1 witness: an invalid validation response with no detail blocks the run
on the initial state and surfaces the fallback message. -/
theorem handleSimulationSubmit_invalid_blocks_run_witness :
    (handleSimulationSubmit (.ok invalidValidationResponse) (.error bareJsError)
        createDefaultSimulationRequest initialAppState).2 = false ∧
    (handleSimulationSubmit (.ok invalidValidationResponse) (.error bareJsError)
        createDefaultSimulationRequest initialAppState).1.results
      = initialAppState.results ∧
    (handleSimulationSubmit (.ok invalidValidationResponse) (.error bareJsError)
        createDefaultSimulationRequest initialAppState).1.error
      = some (jsOrElse invalidValidationResponse.error "Invalid input parameters") :=
  handleSimulationSubmit_invalid_blocks_run invalidValidationResponse
    (.error bareJsError) createDefaultSimulationRequest initialAppState rfl

/-- C9: for every quench medium whose table entry supplies a
heat-transfer-coefficient range [lo, hi], selecting that medium sets
`quenching.quench_medium` to the medium key, `quenching.quench_temperature`
to the entry's typical temperature and
`quenching.heat_transfer_coefficient` to the midpoint (lo + hi) / 2; a key
absent from the table changes no field. -/
theorem handleQuenchMediumChange_spec :
    (∀ (qm : QuenchMediaResponse) (medium : String) (d : QuenchMediumInfo)
        (lo hi : ℚ) (q : QuenchingConditions),
      medium ≠ "" → qm.media.lookup medium = some d →
      d.heat_transfer_coefficient_range = some (lo, hi) →
      handleQuenchMediumChange qm medium q =
        { q with quench_medium := medium,
                 quench_temperature := d.typical_temperature,
                 heat_transfer_coefficient := some ((lo + hi) / 2) })
    ∧ (∀ (qm : QuenchMediaResponse) (medium : String) (q : QuenchingConditions),
      qm.media.lookup medium = none →
      handleQuenchMediumChange qm medium q = q) := by
  constructor
  · intro qm medium d lo hi q hm hl hr
    simp [handleQuenchMediumChange, hm, hl, hr]
  · intro qm medium q hl
    by_cases hm : medium = "" <;> simp [handleQuenchMediumChange, hm, hl]

/-- C9 witness: selecting the oil entry of a one-medium table fills in the
medium key, its 60 °C bath temperature and the 600 midpoint of its 200-1000
coefficient range; selecting the absent key "water" changes nothing. -/
theorem handleQuenchMediumChange_spec_witness :
    handleQuenchMediumChange oilMediaTable "oil" createDefaultSimulationRequest.quenching =
      { createDefaultSimulationRequest.quenching with
          quench_medium := "oil"
          quench_temperature := 60
          heat_transfer_coefficient := some ((200 + 1000) / 2) } ∧
    handleQuenchMediumChange oilMediaTable "water" createDefaultSimulationRequest.quenching =
      createDefaultSimulationRequest.quenching :=
  ⟨handleQuenchMediumChange_spec.1 oilMediaTable "oil" _ 200 1000
      createDefaultSimulationRequest.quenching (by decide) rfl rfl,
   handleQuenchMediumChange_spec.2 oilMediaTable "water"
      createDefaultSimulationRequest.quenching rfl⟩

/-- C10: with fewer than two selected grades, running a material comparison
sets the error message "Please select at least 2 steel grades for comparison"
and never invokes the comparison callback (stored comparison results
unchanged); with two or more grades the callback is invoked, and a thrown
failure is captured into the error state rather than propagated. -/
theorem handleRunComparison_spec :
    (∀ (oc : Except JsError MaterialComparisonResponse) (gs : List String)
        (s : ComparisonState),
      gs.length < 2 →
      handleRunComparison oc gs s =
        ({ s with error := some comparisonMinGradesError }, false))
    ∧ (∀ (oc : Except JsError MaterialComparisonResponse) (gs : List String)
        (s : ComparisonState),
      2 ≤ gs.length → (handleRunComparison oc gs s).2 = true)
    ∧ (∀ (e : JsError) (gs : List String) (s : ComparisonState),
      2 ≤ gs.length →
      handleRunComparison (.error e) gs s =
        ({ s with error := some (jsOrElse (some e.message) "Comparison failed") }, true)) := by
  refine ⟨?_, ?_, ?_⟩
  · intro oc gs s h
    simp [handleRunComparison, h]
  · intro oc gs s h
    have h2 : ¬ gs.length < 2 := not_lt.mpr h
    cases oc <;> simp [handleRunComparison, h2]
  · intro e gs s h
    have h2 : ¬ gs.length < 2 := not_lt.mpr h
    simp [handleRunComparison, h2]

/-- C10 witness: one selected grade only sets the minimum-grades error and
skips the callback; two grades invoke it, and a rejection with an empty
message is captured as the fallback message. -/
theorem handleRunComparison_spec_witness :
    handleRunComparison (.error bareJsError) ["4140"] initialComparisonState =
      ({ initialComparisonState with error := some comparisonMinGradesError }, false) ∧
    handleRunComparison (.error bareJsError) ["4140", "8620"] initialComparisonState =
      ({ initialComparisonState with
          error := some (jsOrElse (some bareJsError.message) "Comparison failed") }, true) :=
  ⟨handleRunComparison_spec.1 (.error bareJsError) ["4140"] initialComparisonState (by decide),
   handleRunComparison_spec.2.2 bareJsError ["4140", "8620"] initialComparisonState (by decide)⟩

end CQT

namespace CoreModel

/-- C5: for every injected constants dataset and composition, a successfully
returned `CriticalTemps` record satisfies AE3 > AE1; any composition for
which the regression yields AE3 ≤ AE1 — and any composition with an element
outside its documented range — is rejected with `InvalidComposition` rather
than returned as a result. -/
theorem criticalTemperatures_ordering
    (m : CriticalTemperaturesModel) (x : SteelComposition) :
    (∀ ct, criticalTemperatures m x = Except.ok ct → ct.ae1 < ct.ae3)
    ∧ (m.ae3.eval x ≤ m.ae1.eval x →
      ∃ msg, criticalTemperatures m x =
        Except.error (CompositionError.invalidComposition msg))
    ∧ (¬ validComposition x →
      ∃ msg, criticalTemperatures m x =
        Except.error (CompositionError.invalidComposition msg)) := by
  refine ⟨?_, ?_, ?_⟩
  · intro ct h
    simp only [criticalTemperatures] at h
    split_ifs at h with hv hle
    all_goals first
      | exact (Except.noConfusion h)
      | (cases h
         simpa using not_le.mp hle)
  · intro hle
    by_cases hv : validComposition x
    · exact ⟨"derived ordering AE3 <= AE1 is physically impossible",
        by simp [criticalTemperatures, hv, hle]⟩
    · exact ⟨"element outside its valid range",
        by simp [criticalTemperatures, hv]⟩
  · intro hv
    exact ⟨"element outside its valid range",
      by simp [criticalTemperatures, hv]⟩

/-- C5 witness: on the reference composition the sample constants return
AE3 = 860 > 715 = AE1; the degenerate constants (AE3 regression at 700, below
AE1) are rejected, as is a composition with 3 wt% carbon. -/
theorem criticalTemperatures_ordering_witness :
    ((⟨860, 715, 454.4, 656⟩ : CriticalTemps).ae1 <
      (⟨860, 715, 454.4, 656⟩ : CriticalTemps).ae3) ∧
    (∃ msg, criticalTemperatures degenerateConstants referenceComposition =
      Except.error (CompositionError.invalidComposition msg)) ∧
    (∃ msg, criticalTemperatures sampleConstants invalidCarbonComposition =
      Except.error (CompositionError.invalidComposition msg)) :=
  ⟨(criticalTemperatures_ordering sampleConstants referenceComposition).1
      ⟨860, 715, 454.4, 656⟩
      (by norm_num [criticalTemperatures, validComposition, sampleConstants,
        referenceComposition, LinearModel.eval, msTemperature]),
   (criticalTemperatures_ordering degenerateConstants referenceComposition).2.1
      (by norm_num [degenerateConstants, sampleConstants, referenceComposition,
        LinearModel.eval]),
   (criticalTemperatures_ordering sampleConstants invalidCarbonComposition).2.2
      (by norm_num [validComposition, invalidCarbonComposition, referenceComposition])⟩

end CoreModel
